import Mathlib

/-!
Shallow embedding of `mama-pack-backend/src/lib.rs` (an Internet Computer
canister managing mother profiles and health records) together with proofs
about its specification claims.

Modelling conventions:
* `u64` values (ids, timestamps, the id counter) are `Nat` with an explicit
  `% 2 ^ 64` wherever the Rust code could overflow (release builds wrap).
* `i32` (parsed blood-pressure components) is `Int` with the parse function
  enforcing the `i32` range, as Rust's `str::parse::<i32>` does.
* `f32` weight is modelled as `ℚ`: every comparison the code performs is
  against the exactly representable constants `45.0` and `100.0`, on which
  `f32` ordering agrees with rational ordering (NaN inputs are outside the
  model).
* `ic_cdk::api::time()` is constant during a message execution, so each
  state-transition function takes the current time `now` as a parameter.
* The `StableBTreeMap`s are modelled as key-sorted association lists (the
  map iterates in ascending key order); the id counter `Cell` is a bare
  value in the store state.
-/

namespace MamaPack

/-- Pregnancy Stage enum for tracking progress (`PregnancyStage` in lib.rs). -/
inductive PregnancyStage where
  | FirstTrimester
  | SecondTrimester
  | ThirdTrimester
  | PostPartum
deriving DecidableEq, Repr

/-- Health Status enum (`HealthStatus` in lib.rs). -/
inductive HealthStatus where
  | Normal
  | NeedsAttention
  | Critical
deriving DecidableEq, Repr

/-- Mother's profile with essential health information (`MotherProfile`). -/
structure MotherProfile where
  id : Nat
  name : String
  age : Nat
  blood_type : String
  expected_delivery_date : Nat
  stage : PregnancyStage
  health_status : HealthStatus
  created_at : Nat
  last_checkup : Nat
  medical_history : List String
  emergency_contact : String
deriving DecidableEq, Repr

/-- Health Record for tracking checkups and vitals (`HealthRecord`). -/
structure HealthRecord where
  id : Nat
  mother_id : Nat
  date : Nat
  blood_pressure : String
  weight : ℚ
  symptoms : List String
  notes : String
  next_appointment : Nat
  health_status : HealthStatus
deriving DecidableEq, Repr

/-- Payload for creating/updating mother's profile (`MotherProfilePayload`). -/
structure MotherProfilePayload where
  name : String
  age : Nat
  blood_type : String
  expected_delivery_date : Nat
  medical_history : List String
  emergency_contact : String
deriving DecidableEq, Repr

/-- Payload for health record entry (`HealthRecordPayload`). -/
structure HealthRecordPayload where
  mother_id : Nat
  blood_pressure : String
  weight : ℚ
  symptoms : List String
  notes : String
  next_appointment : Nat
deriving DecidableEq, Repr

/-- The error enum (`Error` in lib.rs); each variant carries a `msg` string. -/
inductive Error where
  | NotFound (msg : String)
  | InvalidInput (msg : String)
  | SystemError (msg : String)
  | AuthorizationError (msg : String)
  | ValidationError (msg : String)
deriving DecidableEq, Repr

/-! ### Integer parsing, mirroring Rust's `str::parse::<i32>` -/

/-- Value of a decimal digit character, `none` for non-digits. -/
def digitVal (c : Char) : Option Nat :=
  if '0' ≤ c ∧ c ≤ '9' then some (c.toNat - '0'.toNat) else none

/-- Accumulate decimal digits left to right; fails on any non-digit. -/
def decDigitsAux : List Char → Nat → Option Nat
  | [], acc => some acc
  | c :: t, acc =>
    match digitVal c with
    | some d => decDigitsAux t (acc * 10 + d)
    | none => none

/-- Parse a non-empty all-digit character list as a natural number. -/
def decDigits : List Char → Option Nat
  | [] => none
  | c :: t =>
    match digitVal c with
    | some d => decDigitsAux t d
    | none => none

/-- Rust `str::parse::<i32>`: optional sign, at least one decimal digit, no
other characters, value within the `i32` range (overflow is an error). -/
def parseI32 (s : List Char) : Option Int :=
  match s with
  | '+' :: rest =>
    (decDigits rest).bind fun n =>
      if n ≤ 2147483647 then some (n : Int) else none
  | '-' :: rest =>
    (decDigits rest).bind fun n =>
      if n ≤ 2147483648 then some (-(n : Int)) else none
  | l =>
    (decDigits l).bind fun n =>
      if n ≤ 2147483647 then some (n : Int) else none

/-- Does `pat` occur as a contiguous run inside the second list? -/
def containsSub (pat : List Char) : List Char → Bool
  | [] => pat.isEmpty
  | c :: t => pat.isPrefixOf (c :: t) || containsSub pat t

/-- Splitting on a separator character, Rust `str::split(sep)` semantics:
`n` separators yield `n + 1` pieces, empty pieces included. -/
def splitOnCharAux (sep : Char) : List Char → List Char → List (List Char)
  | [], acc => [acc.reverse]
  | c :: t, acc =>
    if c = sep then acc.reverse :: splitOnCharAux sep t []
    else splitOnCharAux sep t (c :: acc)

/-- Rust `str::split(sep)` on a character run. -/
def splitOnChar (sep : Char) (l : List Char) : List (List Char) :=
  splitOnCharAux sep l []

/-- Rust `str::trim` (ASCII fragment): drop leading and trailing whitespace. -/
def trimChars (l : List Char) : List Char :=
  ((l.dropWhile Char.isWhitespace).reverse.dropWhile Char.isWhitespace).reverse

/-- Rust `str::to_lowercase` (ASCII fragment): lowercase each character. -/
def lowerChars (l : List Char) : List Char :=
  l.map Char.toLower

/-! ### Classification engine -/

/-- One week in the system time unit (nanoseconds): `7 * 24 * 60 * 60 * 1e9`. -/
def weekNs : Nat := 7 * 24 * 60 * 60 * 1000000000

/-- One day in nanoseconds: `24 * 60 * 60 * 1e9`. -/
def dayNs : Nat := 24 * 60 * 60 * 1000000000

/-- `weeks_to_edd` as computed inside `calculate_pregnancy_stage`:
`max(0, edd - now)` (the code's `if edd > now { edd - now } else { 0 }`)
divided by one week in nanoseconds. -/
def weeks_to_edd (now edd : Nat) : Nat :=
  (if edd > now then edd - now else 0) / weekNs

/-- Helper function to determine pregnancy stage based on EDD
(`calculate_pregnancy_stage` in lib.rs). -/
def calculate_pregnancy_stage (now edd : Nat) : PregnancyStage :=
  let weeks := weeks_to_edd now edd
  if weeks = 0 then PregnancyStage.PostPartum
  else if weeks ≤ 13 then PregnancyStage.ThirdTrimester
  else if weeks ≤ 27 then PregnancyStage.SecondTrimester
  else PregnancyStage.FirstTrimester

/-- The critical symptom keyword list from `analyze_health_status`. -/
def criticalSymptoms : List String :=
  ["severe", "emergency", "critical", "bleeding",
   "seizure", "unconscious", "fever", "headache"]

/-- The concerning symptom keyword list from `analyze_health_status`. -/
def concerningSymptoms : List String :=
  ["nausea", "vomiting", "swelling", "pain",
   "discomfort", "fatigue", "dizziness"]

/-- The blood-pressure branch of `analyze_health_status`: split on `'/'`,
require exactly two parts, trim and parse each as `i32`, and flag when
`systolic ≥ 140 || diastolic ≥ 90 || systolic < 90 || diastolic < 60`.
Unparsable strings yield `false` (the code falls through). -/
def bpCritical (bp : String) : Bool :=
  match splitOnChar '/' bp.data with
  | [s0, s1] =>
    match parseI32 (trimChars s0), parseI32 (trimChars s1) with
    | some systolic, some diastolic =>
      decide (140 ≤ systolic) || decide (90 ≤ diastolic) ||
      decide (systolic < 90) || decide (diastolic < 60)
    | _, _ => false
  | _ => false

/-- The weight branch of `analyze_health_status`:
`record.weight < 45.0 || record.weight > 100.0`. -/
def weightOutOfRange (w : ℚ) : Bool :=
  decide (w < 45) || decide (w > 100)

/-- Whether any symptom string, lowercased, contains a critical keyword. -/
def hasCriticalSymptom (symptoms : List String) : Bool :=
  symptoms.any fun s =>
    criticalSymptoms.any fun cs => containsSub cs.data (lowerChars s.data)

/-- Whether any symptom string, lowercased, contains a concerning keyword. -/
def hasConcerningSymptom (symptoms : List String) : Bool :=
  symptoms.any fun s =>
    concerningSymptoms.any fun cs => containsSub cs.data (lowerChars s.data)

/-- Helper function to analyze health status based on symptoms and vitals
(`analyze_health_status` in lib.rs): blood pressure first (early return),
then weight, then critical symptoms, then concerning symptoms, else Normal. -/
def analyze_health_status (record : HealthRecordPayload) : HealthStatus :=
  if bpCritical record.blood_pressure then HealthStatus.Critical
  else if weightOutOfRange record.weight then HealthStatus.NeedsAttention
  else if hasCriticalSymptom record.symptoms then HealthStatus.Critical
  else if hasConcerningSymptom record.symptoms then HealthStatus.NeedsAttention
  else HealthStatus.Normal

/-! ### The persistent store: id counter cell and key-sorted maps -/

/-- The `u64` modulus: ids, timestamps and the counter live below it. -/
def U64 : Nat := 2 ^ 64

/-- Point lookup in an association list (`StableBTreeMap::get`): first entry
with the matching key. -/
def mapGet {α : Type} : List (Nat × α) → Nat → Option α
  | [], _ => none
  | (k', v) :: t, k => if k' = k then some v else mapGet t k

/-- `StableBTreeMap::contains_key`. -/
def mapContains {α : Type} (l : List (Nat × α)) (k : Nat) : Bool :=
  (mapGet l k).isSome

/-- Sorted insert with overwrite (`StableBTreeMap::insert`): keeps the entry
list in ascending key order, replacing an existing entry with the same key. -/
def mapInsert {α : Type} : List (Nat × α) → Nat → α → List (Nat × α)
  | [], k, v => [(k, v)]
  | (k', v') :: t, k, v =>
    if k < k' then (k, v) :: (k', v') :: t
    else if k = k' then (k, v) :: t
    else (k', v') :: mapInsert t k v

/-- Modelled from the spec: the Scalar Cell (`ic_stable_structures::Cell`)
holding the identifier counter (the crate itself is not part of src/).
Spec §4.2: `set(cell, value) -> old_value` "persists `value` synchronously
and returns the prior value". -/
structure IdCell where
  value : Nat
deriving DecidableEq, Repr

/-- Modelled from the spec: `get(cell) -> value` is a pure read (§4.2). -/
def cellGet (c : IdCell) : Nat := c.value

/-- Modelled from the spec: `set(cell, value) -> old_value` persists `value`
and returns the prior value (§4.2).  The value written for a `u64` cell is
8 bytes, so the encode step cannot fail. -/
def cellSet (c : IdCell) (v : Nat) : Nat × IdCell :=
  (c.value, { value := v })

/-- The canister's whole stable state: the `ID_COUNTER` cell, the
`PROFILE_STORAGE` map and the `HEALTH_RECORD_STORAGE` map. -/
structure Store where
  idCounter : IdCell
  profiles : List (Nat × MotherProfile)
  records : List (Nat × HealthRecord)
deriving DecidableEq, Repr

/-- The state after canister install: counter initialized to 0, empty maps. -/
def initStore : Store :=
  { idCounter := { value := 0 }, profiles := [], records := [] }

/-- `generate_new_id` in lib.rs: reads the current counter value, then
`counter.set(current_value + 1)` — which persists `current_value + 1` and
evaluates to the cell's prior value.  The `u64` addition wraps. -/
def generate_new_id (s : Store) : Except Error Nat × Store :=
  let current_value := cellGet s.idCounter
  let (prev, c') := cellSet s.idCounter ((current_value + 1) % U64)
  (Except.ok prev, { s with idCounter := c' })

/-! ### Canister methods -/

/-- `validate_mother_profile` in lib.rs: age range 13–65, enumerated blood
type, future delivery date, non-empty trimmed emergency contact. -/
def validate_mother_profile (now : Nat) (payload : MotherProfilePayload) :
    Except Error Unit :=
  if payload.age < 13 ∨ payload.age > 65 then
    Except.error (Error.InvalidInput "Invalid age range. Must be between 13 and 65")
  else if ¬ (["A+", "A-", "B+", "B-", "AB+", "AB-", "O+", "O-"].contains
      payload.blood_type) then
    Except.error (Error.InvalidInput "Invalid blood type")
  else if payload.expected_delivery_date ≤ now then
    Except.error (Error.InvalidInput "Expected delivery date must be in the future")
  else if trimChars payload.emergency_contact.data = [] then
    Except.error (Error.InvalidInput "Emergency contact is required")
  else
    Except.ok ()

/-- `create_mother_profile` in lib.rs: validate, allocate an id, derive the
stage, build the profile with `Normal` status, insert it at its id. -/
def create_mother_profile (now : Nat) (payload : MotherProfilePayload)
    (s : Store) : Except Error MotherProfile × Store :=
  match validate_mother_profile now payload with
  | Except.error e => (Except.error e, s)
  | Except.ok _ =>
    match generate_new_id s with
    | (Except.error e, s1) => (Except.error e, s1)
    | (Except.ok id, s1) =>
      let stage := calculate_pregnancy_stage now payload.expected_delivery_date
      let profile : MotherProfile :=
        { id := id
          name := payload.name
          age := payload.age
          blood_type := payload.blood_type
          expected_delivery_date := payload.expected_delivery_date
          stage := stage
          health_status := HealthStatus.Normal
          created_at := now
          last_checkup := now
          medical_history := payload.medical_history
          emergency_contact := payload.emergency_contact }
      (Except.ok profile, { s1 with profiles := mapInsert s1.profiles id profile })

/-- `update_mother_status` in lib.rs: look the mother up, set her
`health_status` and `last_checkup`, reinsert; `NotFound` if absent. -/
def update_mother_status (mother_id : Nat) (health_status : HealthStatus)
    (now : Nat) (s : Store) : Except Error Unit × Store :=
  match mapGet s.profiles mother_id with
  | some profile =>
    let profile' := { profile with health_status := health_status, last_checkup := now }
    (Except.ok (), { s with profiles := mapInsert s.profiles mother_id profile' })
  | none =>
    (Except.error (Error.NotFound
      ("Mother with id=" ++ toString mother_id ++ " not found")), s)

/-- `add_health_record` in lib.rs: verify the mother exists (before any id
allocation), allocate an id, classify, build the record, update the mother's
profile, then insert the record. -/
def add_health_record (now : Nat) (payload : HealthRecordPayload)
    (s : Store) : Except Error HealthRecord × Store :=
  if ¬ mapContains s.profiles payload.mother_id then
    (Except.error (Error.NotFound
      ("Mother with id=" ++ toString payload.mother_id ++ " not found")), s)
  else
    match generate_new_id s with
    | (Except.error e, s1) => (Except.error e, s1)
    | (Except.ok id, s1) =>
      let health_status := analyze_health_status payload
      let record : HealthRecord :=
        { id := id
          mother_id := payload.mother_id
          date := now
          blood_pressure := payload.blood_pressure
          weight := payload.weight
          symptoms := payload.symptoms
          notes := payload.notes
          next_appointment := payload.next_appointment
          health_status := health_status }
      match update_mother_status payload.mother_id health_status now s1 with
      | (Except.error e, s2) => (Except.error e, s2)
      | (Except.ok _, s2) =>
        (Except.ok record, { s2 with records := mapInsert s2.records id record })

/-- `matches!(profile.health_status, HealthStatus::Critical)`. -/
def isCriticalStatus : HealthStatus → Bool
  | HealthStatus.Critical => true
  | _ => false

/-- `get_high_risk_profiles` in lib.rs: iterate the profile map, keep the
`Critical` ones, drop the keys. -/
def get_high_risk_profiles (s : Store) : List MotherProfile :=
  (s.profiles.filter fun kv => isCriticalStatus kv.2.health_status).map fun kv => kv.2

/-- `get_critical_cases` in lib.rs: iterate the profile map, keep the
`Critical` ones, drop the keys. -/
def get_critical_cases (s : Store) : List MotherProfile :=
  (s.profiles.filter fun kv => isCriticalStatus kv.2.health_status).map fun kv => kv.2

/-- The `target` bound computed by `get_upcoming_appointments`:
`now + days * 24 * 60 * 60 * 1_000_000_000` in wrapping `u64` arithmetic. -/
def appointmentTarget (now days : Nat) : Nat :=
  (now + (days * dayNs) % U64) % U64

/-- `get_upcoming_appointments` in lib.rs: scan the record map for records
with `next_appointment > now && next_appointment <= target`, join each to
its owning profile by point lookup, silently dropping records whose profile
is absent. -/
def get_upcoming_appointments (now days : Nat) (s : Store) :
    List (MotherProfile × HealthRecord) :=
  ((s.records.filter fun kv =>
      decide (kv.2.next_appointment > now) &&
      decide (kv.2.next_appointment ≤ appointmentTarget now days)).filterMap
    fun kv => (mapGet s.profiles kv.2.mother_id).map fun profile => (profile, kv.2))

/-! ### Traces of update calls -/

/-- One externally triggered update call, with the message time. -/
inductive Op where
  | createProfile (now : Nat) (payload : MotherProfilePayload)
  | addRecord (now : Nat) (payload : HealthRecordPayload)
deriving DecidableEq, Repr

/-- The store state after an update call. -/
def applyOp (s : Store) : Op → Store
  | Op.createProfile now payload => (create_mother_profile now payload s).2
  | Op.addRecord now payload => (add_health_record now payload s).2

/-- The id embedded in the entity a successful update call returns. -/
def opAllocatedId (s : Store) : Op → Option Nat
  | Op.createProfile now payload =>
    match (create_mother_profile now payload s).1 with
    | Except.ok profile => some profile.id
    | Except.error _ => none
  | Op.addRecord now payload =>
    match (add_health_record now payload s).1 with
    | Except.ok record => some record.id
    | Except.error _ => none

/-- Run a sequence of update calls, collecting the allocated ids. -/
def runTrace : Store → List Op → List Nat × Store
  | s, [] => ([], s)
  | s, op :: t =>
    let ids := (opAllocatedId s op).toList
    let (rest, sf) := runTrace (applyOp s op) t
    (ids ++ rest, sf)

/-! ### Association-list map lemmas -/

/-- Ascending-key order between entries. -/
def keyLT {α : Type} (a b : Nat × α) : Prop := a.1 < b.1

/-- The map invariant: entries in strictly ascending key order. -/
def keysSorted {α : Type} (l : List (Nat × α)) : Prop := l.Pairwise keyLT

instance {α : Type} : DecidableRel (@keyLT α) :=
  fun a b => inferInstanceAs (Decidable (a.1 < b.1))

/-! ### Store invariant and operation characterizations -/

/-- Store well-formedness, holding in every reachable state: both maps are
key-sorted, every stored entity records its own key as its `id`, and every
key is below the counter (so a fresh id never collides). -/
def Store.WF (s : Store) : Prop :=
  keysSorted s.profiles ∧ keysSorted s.records ∧
  (∀ kv ∈ s.profiles, kv.2.id = kv.1 ∧ kv.1 < cellGet s.idCounter) ∧
  (∀ kv ∈ s.records, kv.2.id = kv.1 ∧ kv.1 < cellGet s.idCounter)

instance {α : Type} (l : List (Nat × α)) : Decidable (keysSorted l) :=
  inferInstanceAs (Decidable (l.Pairwise keyLT))

instance (s : Store) : Decidable s.WF :=
  inferInstanceAs (Decidable (keysSorted s.profiles ∧ keysSorted s.records ∧
    (∀ kv ∈ s.profiles, kv.2.id = kv.1 ∧ kv.1 < cellGet s.idCounter) ∧
    (∀ kv ∈ s.records, kv.2.id = kv.1 ∧ kv.1 < cellGet s.idCounter)))

/-! ### Concrete fixtures used in witness and counterexample theorems -/

/-- A payload passing validation (age 25, blood type A+, future EDD). -/
def payProfile : MotherProfilePayload :=
  { name := "Amina", age := 25, blood_type := "A+",
    expected_delivery_date := 100, medical_history := [],
    emergency_contact := "Halima" }

/-- A benign health-record payload for mother 0. -/
def payRecord : HealthRecordPayload :=
  { mother_id := 0, blood_pressure := "120/80", weight := 70, symptoms := [],
    notes := "", next_appointment := 0 }

/-- A health-record payload with out-of-range weight 40 and the symptom
"mild headache", for mother 0. -/
def payRecMild : HealthRecordPayload :=
  { mother_id := 0, blood_pressure := "110/70", weight := 40,
    symptoms := ["mild headache"], notes := "", next_appointment := 7 }

/-- A health-record payload referencing a mother id that does not exist. -/
def payRecOrphan : HealthRecordPayload :=
  { mother_id := 7, blood_pressure := "120/80", weight := 70, symptoms := [],
    notes := "", next_appointment := 0 }

/-- A stored profile with id 0 and Critical status. -/
def profA : MotherProfile :=
  { id := 0, name := "A", age := 30, blood_type := "O+",
    expected_delivery_date := 50, stage := PregnancyStage.SecondTrimester,
    health_status := HealthStatus.Critical, created_at := 1, last_checkup := 1,
    medical_history := [], emergency_contact := "c" }

/-- A stored record with id 1 owned by mother 0, next appointment exactly
one day after time 0. -/
def recB : HealthRecord :=
  { id := 1, mother_id := 0, date := 0, blood_pressure := "120/80",
    weight := 70, symptoms := [], notes := "", next_appointment := dayNs,
    health_status := HealthStatus.Normal }

/-- A well-formed store holding the single profile `profA`. -/
def storeA : Store :=
  { idCounter := { value := 1 }, profiles := [(0, profA)], records := [] }

/-- A well-formed store holding `profA` and the record `recB`. -/
def storeB : Store :=
  { idCounter := { value := 2 }, profiles := [(0, profA)],
    records := [(1, recB)] }

/-- A payload whose delivery date is 1 nanosecond after epoch: valid when
created at time 0 yet strictly less than a week away. -/
def payC9 : MotherProfilePayload :=
  { name := "B", age := 25, blood_type := "A+", expected_delivery_date := 1,
    medical_history := [], emergency_contact := "x" }

/-- The profile `create_mother_profile 0 payC9 initStore` produces. -/
def profC9 : MotherProfile :=
  { id := 0, name := "B", age := 25, blood_type := "A+",
    expected_delivery_date := 1, stage := PregnancyStage.PostPartum,
    health_status := HealthStatus.Normal, created_at := 0, last_checkup := 0,
    medical_history := [], emergency_contact := "x" }


theorem mapGet_mapInsert_self {α : Type} (l : List (Nat × α)) (k : Nat) (v : α) :
    mapGet (mapInsert l k v) k = some v := by
  induction l with
  | nil => simp [mapInsert, mapGet]
  | cons hd t ih =>
    obtain ⟨k', v'⟩ := hd
    by_cases h1 : k < k'
    · simp [mapInsert, h1, mapGet]
    · by_cases h2 : k = k'
      · simp [mapInsert, h1, h2, mapGet]
      · have h3 : ¬ k' = k := fun h => h2 h.symm
        simp [mapInsert, h1, h2, mapGet, h3, ih]

theorem mapGet_mapInsert_ne {α : Type} (l : List (Nat × α)) (k j : Nat) (v : α)
    (h : j ≠ k) : mapGet (mapInsert l k v) j = mapGet l j := by
  have h' : ¬ k = j := fun hh => h hh.symm
  induction l with
  | nil => simp [mapInsert, mapGet, h']
  | cons hd t ih =>
    obtain ⟨k', v'⟩ := hd
    by_cases h1 : k < k'
    · simp [mapInsert, h1, mapGet, h']
    · by_cases h2 : k = k'
      · subst h2
        simp [mapInsert, h1, mapGet, h']
      · simp [mapInsert, h1, h2, mapGet, ih]

theorem mapContains_mapInsert {α : Type} (l : List (Nat × α)) (k j : Nat) (v : α) :
    mapContains (mapInsert l k v) j = (j = k ∨ mapContains l j = true) := by
  by_cases h : j = k
  · subst h
    simp [mapContains, mapGet_mapInsert_self]
  · simp [mapContains, mapGet_mapInsert_ne l k j v h, h]

theorem mem_of_mapGet_eq_some {α : Type} {l : List (Nat × α)} {k : Nat} {v : α}
    (h : mapGet l k = some v) : (k, v) ∈ l := by
  induction l with
  | nil => simp [mapGet] at h
  | cons hd t ih =>
    obtain ⟨k', v'⟩ := hd
    by_cases hk : k' = k
    · subst hk
      simp [mapGet] at h
      subst h
      exact List.mem_cons_self _ _
    · simp [mapGet, hk] at h
      exact List.mem_cons_of_mem _ (ih h)

theorem mapGet_eq_some_of_mem {α : Type} {l : List (Nat × α)} {k : Nat} {v : α}
    (hs : keysSorted l) (h : (k, v) ∈ l) : mapGet l k = some v := by
  induction l with
  | nil => simp at h
  | cons hd t ih =>
    obtain ⟨k', v'⟩ := hd
    rcases List.mem_cons.mp h with heq | hmem
    · cases heq
      simp [mapGet]
    · have hlt : k' < k := by
        have := (List.pairwise_cons.mp hs).1 (k, v) hmem
        exact this
      have : ¬ k' = k := Nat.ne_of_lt hlt
      simp [mapGet, this]
      exact ih (List.pairwise_cons.mp hs).2 hmem

theorem mem_mapInsert_sub {α : Type} {l : List (Nat × α)} {k : Nat} {v : α}
    {kv : Nat × α} (h : kv ∈ mapInsert l k v) : kv = (k, v) ∨ kv ∈ l := by
  induction l with
  | nil => simpa [mapInsert] using h
  | cons hd t ih =>
    obtain ⟨k', v'⟩ := hd
    by_cases h1 : k < k'
    · simp only [mapInsert, if_pos h1] at h
      rcases List.mem_cons.mp h with h | h
      · exact Or.inl h
      · exact Or.inr h
    · by_cases h2 : k = k'
      · simp only [mapInsert, if_neg h1, if_pos h2] at h
        rcases List.mem_cons.mp h with h | h
        · exact Or.inl h
        · exact Or.inr (List.mem_cons_of_mem _ h)
      · simp only [mapInsert, if_neg h1, if_neg h2] at h
        rcases List.mem_cons.mp h with h | h
        · exact Or.inr (by simp [h])
        · rcases ih h with h | h
          · exact Or.inl h
          · exact Or.inr (List.mem_cons_of_mem _ h)

theorem keysSorted_mapInsert {α : Type} {l : List (Nat × α)} (k : Nat) (v : α)
    (hs : keysSorted l) : keysSorted (mapInsert l k v) := by
  induction l with
  | nil => simp [mapInsert, keysSorted]
  | cons hd t ih =>
    obtain ⟨k', v'⟩ := hd
    obtain ⟨hhd, ht⟩ := List.pairwise_cons.mp hs
    by_cases h1 : k < k'
    · simp only [mapInsert, if_pos h1]
      refine List.pairwise_cons.mpr ⟨?_, hs⟩
      intro b hb
      rcases List.mem_cons.mp hb with hb | hb
      · subst hb; exact h1
      · exact Nat.lt_trans h1 (hhd b hb)
    · by_cases h2 : k = k'
      · subst h2
        simp only [mapInsert, if_neg h1, if_pos rfl]
        exact List.pairwise_cons.mpr ⟨fun b hb => hhd b hb, ht⟩
      · simp only [mapInsert, if_neg h1, if_neg h2]
        refine List.pairwise_cons.mpr ⟨?_, ih ht⟩
        intro b hb
        rcases mem_mapInsert_sub hb with hb | hb
        · subst hb
          exact Nat.lt_of_le_of_ne (Nat.le_of_not_lt h1) fun h => h2 h.symm
        · exact hhd b hb

/-- `create_mother_profile` either rejects the payload and leaves the store
untouched, or allocates the current counter value as the id and inserts the
new profile there. -/
theorem create_mother_profile_spec (now : Nat) (p : MotherProfilePayload)
    (s : Store) :
    (∃ e, create_mother_profile now p s = (Except.error e, s)) ∨
    (∃ profile,
      create_mother_profile now p s =
        (Except.ok profile,
         { idCounter := { value := (cellGet s.idCounter + 1) % U64 },
           profiles := mapInsert s.profiles (cellGet s.idCounter) profile,
           records := s.records }) ∧
      profile.id = cellGet s.idCounter ∧
      profile.health_status = HealthStatus.Normal) := by
  cases hv : validate_mother_profile now p with
  | error e => exact Or.inl ⟨e, by simp [create_mother_profile, hv]⟩
  | ok u =>
    refine Or.inr
      ⟨{ id := cellGet s.idCounter
         name := p.name
         age := p.age
         blood_type := p.blood_type
         expected_delivery_date := p.expected_delivery_date
         stage := calculate_pregnancy_stage now p.expected_delivery_date
         health_status := HealthStatus.Normal
         created_at := now
         last_checkup := now
         medical_history := p.medical_history
         emergency_contact := p.emergency_contact }, ?_, rfl, rfl⟩
    simp [create_mother_profile, hv, generate_new_id, cellGet, cellSet]

/-- `add_health_record` either finds no mother and leaves the store
untouched, or allocates the current counter value, inserts the record
there, and rewrites the mother's profile with the new status and checkup
time. -/
theorem add_health_record_spec (now : Nat) (p : HealthRecordPayload)
    (s : Store) :
    (mapContains s.profiles p.mother_id = false ∧
      add_health_record now p s =
        (Except.error (Error.NotFound
          ("Mother with id=" ++ toString p.mother_id ++ " not found")), s)) ∨
    (∃ profile,
      mapGet s.profiles p.mother_id = some profile ∧
      add_health_record now p s =
        (Except.ok
          { id := cellGet s.idCounter
            mother_id := p.mother_id
            date := now
            blood_pressure := p.blood_pressure
            weight := p.weight
            symptoms := p.symptoms
            notes := p.notes
            next_appointment := p.next_appointment
            health_status := analyze_health_status p },
         { idCounter := { value := (cellGet s.idCounter + 1) % U64 },
           profiles := mapInsert s.profiles p.mother_id
             { profile with
                 health_status := analyze_health_status p
                 last_checkup := now },
           records := mapInsert s.records (cellGet s.idCounter)
             { id := cellGet s.idCounter
               mother_id := p.mother_id
               date := now
               blood_pressure := p.blood_pressure
               weight := p.weight
               symptoms := p.symptoms
               notes := p.notes
               next_appointment := p.next_appointment
               health_status := analyze_health_status p } })) := by
  cases hg : mapGet s.profiles p.mother_id with
  | none =>
    refine Or.inl ⟨by simp [mapContains, hg], ?_⟩
    simp [add_health_record, mapContains, hg]
  | some profile =>
    refine Or.inr ⟨profile, rfl, ?_⟩
    simp [add_health_record, mapContains, hg, generate_new_id, cellGet, cellSet,
      update_mother_status]

/-- Each update call either allocates nothing and leaves the store as it
was, or hands out exactly the current counter value and bumps the counter
by one (wrapping). -/
theorem applyOp_counter (s : Store) (op : Op) :
    (opAllocatedId s op = none ∧ applyOp s op = s) ∨
    (opAllocatedId s op = some (cellGet s.idCounter) ∧
     cellGet (applyOp s op).idCounter = (cellGet s.idCounter + 1) % U64) := by
  cases op with
  | createProfile now p =>
    rcases create_mother_profile_spec now p s with ⟨e, he⟩ | ⟨profile, he, hid, _⟩
    · exact Or.inl ⟨by simp [opAllocatedId, he], by simp [applyOp, he]⟩
    · refine Or.inr ⟨by simp [opAllocatedId, he, hid], ?_⟩
      simp [applyOp, he, cellGet]
  | addRecord now p =>
    rcases add_health_record_spec now p s with ⟨hc, he⟩ | ⟨profile, hg, he⟩
    · exact Or.inl ⟨by simp [opAllocatedId, he], by simp [applyOp, he]⟩
    · refine Or.inr ⟨by simp [opAllocatedId, he], ?_⟩
      simp [applyOp, he, cellGet]

/-- Well-formedness is preserved by every update call, as long as the
counter has room to grow without wrapping. -/
theorem WF_applyOp (s : Store) (op : Op) (hWF : Store.WF s)
    (hc : cellGet s.idCounter + 1 < U64) : Store.WF (applyOp s op) := by
  obtain ⟨hsp, hsr, hip, hir⟩ := hWF
  have hmod : (cellGet s.idCounter + 1) % U64 = cellGet s.idCounter + 1 :=
    Nat.mod_eq_of_lt hc
  cases op with
  | createProfile now p =>
    rcases create_mother_profile_spec now p s with ⟨e, he⟩ | ⟨profile, he, hid, _⟩
    · show Store.WF (create_mother_profile now p s).2
      rw [he]
      exact ⟨hsp, hsr, hip, hir⟩
    · show Store.WF (create_mother_profile now p s).2
      rw [he]
      unfold Store.WF
      dsimp only [cellGet]
      have hmod2 : (s.idCounter.value + 1) % U64 = s.idCounter.value + 1 := hmod
      rw [hmod2]
      refine ⟨keysSorted_mapInsert _ _ hsp, hsr, ?_, ?_⟩
      · intro kv hkv
        rcases mem_mapInsert_sub hkv with h | h
        · subst h
          exact ⟨hid, Nat.lt_succ_self _⟩
        · exact ⟨(hip kv h).1, Nat.lt_trans (hip kv h).2 (Nat.lt_succ_self _)⟩
      · intro kv hkv
        exact ⟨(hir kv hkv).1, Nat.lt_trans (hir kv hkv).2 (Nat.lt_succ_self _)⟩
  | addRecord now p =>
    rcases add_health_record_spec now p s with ⟨hcq, he⟩ | ⟨profile, hg, he⟩
    · show Store.WF (add_health_record now p s).2
      rw [he]
      exact ⟨hsp, hsr, hip, hir⟩
    · have hpm : (p.mother_id, profile) ∈ s.profiles := mem_of_mapGet_eq_some hg
      have hpid : profile.id = p.mother_id := (hip _ hpm).1
      have hplt : p.mother_id < cellGet s.idCounter := (hip _ hpm).2
      show Store.WF (add_health_record now p s).2
      rw [he]
      unfold Store.WF
      dsimp only [cellGet]
      have hmod2 : (s.idCounter.value + 1) % U64 = s.idCounter.value + 1 := hmod
      rw [hmod2]
      refine ⟨keysSorted_mapInsert _ _ hsp, keysSorted_mapInsert _ _ hsr, ?_, ?_⟩
      · intro kv hkv
        rcases mem_mapInsert_sub hkv with h | h
        · subst h
          exact ⟨hpid, Nat.lt_trans hplt (Nat.lt_succ_self _)⟩
        · exact ⟨(hip kv h).1, Nat.lt_trans (hip kv h).2 (Nat.lt_succ_self _)⟩
      · intro kv hkv
        rcases mem_mapInsert_sub hkv with h | h
        · subst h
          exact ⟨rfl, Nat.lt_succ_self _⟩
        · exact ⟨(hir kv h).1, Nat.lt_trans (hir kv h).2 (Nat.lt_succ_self _)⟩

theorem runTrace_cons (s : Store) (op : Op) (t : List Op) :
    runTrace s (op :: t) =
      ((opAllocatedId s op).toList ++ (runTrace (applyOp s op) t).1,
       (runTrace (applyOp s op) t).2) := by
  simp [runTrace]

/-- So long as the counter cannot wrap, the ids a trace hands out are an
initial run of consecutive values starting at the current counter value. -/
theorem runTrace_ids (ops : List Op) : ∀ s : Store,
    cellGet s.idCounter + ops.length ≤ U64 →
    ∃ k, k ≤ ops.length ∧
      (runTrace s ops).1 = List.range' (cellGet s.idCounter) k := by
  induction ops with
  | nil => exact fun s _ => ⟨0, Nat.le_refl 0, rfl⟩
  | cons op t ih =>
    intro s h
    rw [List.length_cons] at h
    rcases applyOp_counter s op with ⟨hnone, hstate⟩ | ⟨hsome, hcounter⟩
    · have h' : cellGet (applyOp s op).idCounter + t.length ≤ U64 := by
        rw [hstate]
        exact Nat.le_of_succ_le h
      obtain ⟨k, hk, heq⟩ := ih _ h'
      refine ⟨k, Nat.le_succ_of_le hk, ?_⟩
      rw [runTrace_cons, hnone, hstate]
      rw [hstate] at heq
      simpa using heq
    · by_cases hlt : cellGet s.idCounter + 1 < U64
      · have hc' : cellGet (applyOp s op).idCounter = cellGet s.idCounter + 1 := by
          rw [hcounter]
          exact Nat.mod_eq_of_lt hlt
        have h' : cellGet (applyOp s op).idCounter + t.length ≤ U64 := by
          rw [hc']
          omega
        obtain ⟨k, hk, heq⟩ := ih _ h'
        refine ⟨k + 1, Nat.succ_le_succ hk, ?_⟩
        rw [runTrace_cons, hsome, List.range'_succ]
        rw [hc'] at heq
        simpa using heq
      · have hle : cellGet s.idCounter + 1 ≤ U64 := by
          omega
        have heq64 : cellGet s.idCounter + 1 = U64 :=
          Nat.le_antisymm hle (Nat.le_of_not_lt hlt)
        have ht : t.length = 0 := by omega
        have ht' : t = [] := List.eq_nil_of_length_eq_zero ht
        subst ht'
        refine ⟨1, Nat.le_refl 1, ?_⟩
        rw [runTrace_cons, hsome]
        simp [runTrace, List.range'_succ]

theorem isCriticalStatus_iff (st : HealthStatus) :
    isCriticalStatus st = true ↔ st = HealthStatus.Critical := by
  cases st <;> simp [isCriticalStatus]

theorem WF_initStore : Store.WF initStore := by decide

/-- Well-formedness is preserved along a whole trace while the counter has
room for one id per call. -/
theorem WF_runTrace (ops : List Op) : ∀ s : Store, Store.WF s →
    cellGet s.idCounter + ops.length < U64 → Store.WF (runTrace s ops).2 := by
  induction ops with
  | nil => exact fun s hWF _ => hWF
  | cons op t ih =>
    intro s hWF h
    rw [List.length_cons] at h
    rw [runTrace_cons]
    dsimp only
    apply ih
    · exact WF_applyOp s op hWF (by omega)
    · rcases applyOp_counter s op with ⟨_, hstate⟩ | ⟨_, hcounter⟩
      · rw [hstate]
        omega
      · have hc' : cellGet (applyOp s op).idCounter = cellGet s.idCounter + 1 := by
          rw [hcounter]
          exact Nat.mod_eq_of_lt (by omega)
        rw [hc']
        omega

/-- On any well-formed store, `get_critical_cases` returns exactly the
`Critical` profiles, in ascending id order. -/
theorem critical_scan_WF (s : Store) (hWF : Store.WF s) :
    (∀ prof, prof ∈ get_critical_cases s ↔
      (mapGet s.profiles prof.id = some prof ∧
       prof.health_status = HealthStatus.Critical)) ∧
    (get_critical_cases s).Pairwise (fun a b => a.id < b.id) := by
  obtain ⟨hsp, _, hip, _⟩ := hWF
  constructor
  · intro prof
    constructor
    · intro hmem
      rcases List.mem_map.mp hmem with ⟨kv, hkvf, hkv2⟩
      obtain ⟨hkvm, hcond⟩ := List.mem_filter.mp hkvf
      have hcrit := (isCriticalStatus_iff _).mp hcond
      subst hkv2
      refine ⟨mapGet_eq_some_of_mem hsp ?_, hcrit⟩
      rw [(hip kv hkvm).1]
      exact hkvm
    · rintro ⟨hget, hcrit⟩
      have hmem := mem_of_mapGet_eq_some hget
      refine List.mem_map.mpr
        ⟨(prof.id, prof), List.mem_filter.mpr ⟨hmem, ?_⟩, rfl⟩
      exact (isCriticalStatus_iff _).mpr hcrit
  · have hp : (s.profiles.filter fun kv =>
        isCriticalStatus kv.2.health_status).Pairwise keyLT :=
      hsp.filter _
    refine List.pairwise_map.mpr ?_
    refine List.Pairwise.imp_of_mem ?_ hp
    intro a b ha hb hab
    have hA := (hip a (List.mem_of_mem_filter ha)).1
    have hB := (hip b (List.mem_of_mem_filter hb)).1
    rw [hA, hB]
    exact hab

/-! ### The claims -/

/-- C1 counterexample: starting from the initial store (counter 0),
`generate_new_id` persists `0 + 1` in the counter cell but returns
`Except.ok 0` — the prior value — not the new value `0 + 1` the claim
promises. -/
theorem C1_counterexample :
    (generate_new_id initStore).1 = Except.ok 0 ∧
    cellGet (generate_new_id initStore).2.idCounter = 0 + 1 ∧
    (generate_new_id initStore).1 ≠ Except.ok (0 + 1) := by
  refine ⟨rfl, rfl, fun h => absurd (Except.ok.inj h) (by decide)⟩

/-- C1 (amended): for every store state, `generate_new_id` reads the
current counter value, durably persists `current + 1` (wrapping at 2^64)
into the Scalar Cell, and returns the *prior* value `current` to the
caller; the two entity maps are untouched. -/
theorem C1_generate_new_id (s : Store) :
    (generate_new_id s).1 = Except.ok (cellGet s.idCounter) ∧
    cellGet (generate_new_id s).2.idCounter = (cellGet s.idCounter + 1) % U64 ∧
    (generate_new_id s).2.profiles = s.profiles ∧
    (generate_new_id s).2.records = s.records :=
  ⟨rfl, rfl, rfl, rfl⟩

/-- C2: `analyze_health_status` applies its checks in strict short-circuit
priority order — blood pressure, then weight range [45, 100], then critical
symptom keywords, then concerning symptom keywords, else Normal — with an
unparsable blood-pressure string skipped silently; in particular weight 40
with symptom "mild headache" is NeedsAttention and weight 70 with blood
pressure "120/80" and symptom "severe bleeding" is Critical. -/
theorem C2_analyze_priority :
    (∀ p : HealthRecordPayload, bpCritical p.blood_pressure = true →
        analyze_health_status p = HealthStatus.Critical) ∧
    (∀ p : HealthRecordPayload, bpCritical p.blood_pressure = false →
        weightOutOfRange p.weight = true →
        analyze_health_status p = HealthStatus.NeedsAttention) ∧
    (∀ p : HealthRecordPayload, bpCritical p.blood_pressure = false →
        weightOutOfRange p.weight = false →
        hasCriticalSymptom p.symptoms = true →
        analyze_health_status p = HealthStatus.Critical) ∧
    (∀ p : HealthRecordPayload, bpCritical p.blood_pressure = false →
        weightOutOfRange p.weight = false →
        hasCriticalSymptom p.symptoms = false →
        hasConcerningSymptom p.symptoms = true →
        analyze_health_status p = HealthStatus.NeedsAttention) ∧
    (∀ p : HealthRecordPayload, bpCritical p.blood_pressure = false →
        weightOutOfRange p.weight = false →
        hasCriticalSymptom p.symptoms = false →
        hasConcerningSymptom p.symptoms = false →
        analyze_health_status p = HealthStatus.Normal) ∧
    bpCritical "n/a" = false ∧
    analyze_health_status
      { mother_id := 0, blood_pressure := "110/70", weight := 40,
        symptoms := ["mild headache"], notes := "", next_appointment := 0 } =
      HealthStatus.NeedsAttention ∧
    analyze_health_status
      { mother_id := 0, blood_pressure := "120/80", weight := 70,
        symptoms := ["severe bleeding"], notes := "", next_appointment := 0 } =
      HealthStatus.Critical := by
  refine ⟨?_, ?_, ?_, ?_, ?_, by decide, by decide, by decide⟩
  · intro p h1
    simp [analyze_health_status, h1]
  · intro p h1 h2
    simp [analyze_health_status, h1, h2]
  · intro p h1 h2 h3
    simp [analyze_health_status, h1, h2, h3]
  · intro p h1 h2 h3 h4
    simp [analyze_health_status, h1, h2, h3, h4]
  · intro p h1 h2 h3 h4
    simp [analyze_health_status, h1, h2, h3, h4]

/-- C2 witness: the priority rules at a concrete payload — blood pressure
"150/95" parses and is flagged, so the status is Critical. -/
theorem C2_witness :
    analyze_health_status
      { mother_id := 0, blood_pressure := "150/95", weight := 70,
        symptoms := [], notes := "", next_appointment := 0 } =
      HealthStatus.Critical :=
  C2_analyze_priority.1 _ (by decide)

/-- C3: `add_health_record` with a `mother_id` that has no profile returns
the NotFound error and leaves the entire store — counter cell included —
exactly as it was. -/
theorem C3_add_health_record_not_found (now : Nat) (p : HealthRecordPayload)
    (s : Store) (h : mapContains s.profiles p.mother_id = false) :
    add_health_record now p s =
      (Except.error (Error.NotFound
        ("Mother with id=" ++ toString p.mother_id ++ " not found")), s) := by
  simp [add_health_record, h]

/-- C3 witness: adding a record for missing mother 7 to the empty initial
store fails with NotFound and changes nothing. -/
theorem C3_witness :
    add_health_record 5 payRecOrphan initStore =
      (Except.error (Error.NotFound
        ("Mother with id=" ++ toString payRecOrphan.mother_id ++ " not found")),
       initStore) :=
  C3_add_health_record_not_found 5 payRecOrphan initStore (by decide)

/-- C4: `calculate_pregnancy_stage` is a function of
`weeks_to_edd = max(0, edd - now) / week-in-nanoseconds` alone; at
`edd = now` (zero weeks) it yields the post-partum bucket, and at
`edd = now + 30 weeks` it yields the first-trimester bucket. -/
theorem C4_stage_from_weeks :
    (∀ now edd now' edd', weeks_to_edd now edd = weeks_to_edd now' edd' →
        calculate_pregnancy_stage now edd = calculate_pregnancy_stage now' edd') ∧
    (∀ now, weeks_to_edd now now = 0 ∧
        calculate_pregnancy_stage now now = PregnancyStage.PostPartum) ∧
    (∀ now, weeks_to_edd now (now + 30 * weekNs) = 30 ∧
        calculate_pregnancy_stage now (now + 30 * weekNs) =
          PregnancyStage.FirstTrimester) := by
  refine ⟨?_, ?_, ?_⟩
  · intro now edd now' edd' h
    simp only [calculate_pregnancy_stage]
    rw [h]
  · intro now
    constructor
    · simp [weeks_to_edd]
    · simp [calculate_pregnancy_stage, weeks_to_edd]
  · intro now
    have hlt : now < now + 30 * weekNs := Nat.lt_add_of_pos_right (by decide)
    have hw : weeks_to_edd now (now + 30 * weekNs) = 30 := by
      simp only [weeks_to_edd, gt_iff_lt, if_pos hlt, Nat.add_sub_cancel_left]
      exact Nat.mul_div_cancel 30 (by decide)
    exact ⟨hw, by simp [calculate_pregnancy_stage, hw]⟩

/-- C4 witness: the stage depends only on the computed week count — two
different (now, edd) pairs with equal `weeks_to_edd` get the same stage. -/
theorem C4_witness :
    calculate_pregnancy_stage 0 0 = calculate_pregnancy_stage 3 3 :=
  C4_stage_from_weeks.1 0 0 3 3 (by decide)

/-- C5: along any trace of update calls that cannot exhaust the 64-bit id
space, the ids handed out (across profiles and health records together) are
strictly increasing, hence pairwise distinct. -/
theorem C5_ids_distinct (ops : List Op) (s : Store)
    (h : cellGet s.idCounter + ops.length ≤ U64) :
    (runTrace s ops).1.Pairwise (fun a b => a < b) ∧
    (runTrace s ops).1.Nodup := by
  obtain ⟨k, _, heq⟩ := runTrace_ids ops s h
  rw [heq]
  exact ⟨List.pairwise_lt_range' _ _, List.nodup_range' _ _⟩

/-- C5 witness: a successful profile creation followed by a successful
health-record insertion hands out strictly increasing, distinct ids. -/
theorem C5_witness :
    (runTrace initStore
        [Op.createProfile 10 payProfile, Op.addRecord 20 payRecord]).1.Pairwise
      (fun a b => a < b) ∧
    (runTrace initStore
        [Op.createProfile 10 payProfile, Op.addRecord 20 payRecord]).1.Nodup :=
  C5_ids_distinct [Op.createProfile 10 payProfile, Op.addRecord 20 payRecord]
    initStore (by decide)

/-- C6: a successful `add_health_record` keeps the profile map's key set
unchanged (no profile is created or deleted), leaves every other mother's
profile bit-identical, and rewrites the referenced mother's profile to the
same profile with only `health_status` (the newly computed status) and
`last_checkup` (the current time) changed; `create_mother_profile` never
touches an existing profile. -/
theorem C6_profile_frame (now : Nat) (p : HealthRecordPayload) (s : Store)
    (hWF : Store.WF s) (hm : mapContains s.profiles p.mother_id = true) :
    (∀ k, mapContains (add_health_record now p s).2.profiles k =
        mapContains s.profiles k) ∧
    (∀ k prof, k ≠ p.mother_id → mapGet s.profiles k = some prof →
        mapGet (add_health_record now p s).2.profiles k = some prof) ∧
    (∀ prof, mapGet s.profiles p.mother_id = some prof →
        mapGet (add_health_record now p s).2.profiles p.mother_id =
          some { prof with
                   health_status := analyze_health_status p
                   last_checkup := now }) ∧
    (∀ now' q k prof, mapGet s.profiles k = some prof →
        mapGet (create_mother_profile now' q s).2.profiles k = some prof) := by
  obtain ⟨_, _, hip, _⟩ := hWF
  rcases add_health_record_spec now p s with ⟨hfalse, _⟩ | ⟨profile, hg, he⟩
  · simp [hm] at hfalse
  · have hprofiles : (add_health_record now p s).2.profiles =
        mapInsert s.profiles p.mother_id
          { profile with
              health_status := analyze_health_status p
              last_checkup := now } := by
      rw [he]
    refine ⟨?_, ?_, ?_, ?_⟩
    · intro k
      rw [hprofiles]
      by_cases hk : k = p.mother_id
      · subst hk
        rw [hm]
        simp [mapContains, mapGet_mapInsert_self]
      · unfold mapContains
        rw [mapGet_mapInsert_ne _ _ _ _ hk]
    · intro k prof hk hget
      rw [hprofiles, mapGet_mapInsert_ne _ _ _ _ hk]
      exact hget
    · intro prof hget
      rw [hg] at hget
      cases Option.some.inj hget
      rw [hprofiles]
      exact mapGet_mapInsert_self _ _ _
    · intro now' q k prof hget
      rcases create_mother_profile_spec now' q s with ⟨e, hee⟩ | ⟨prof', hee, _, _⟩
      · rw [hee]
        exact hget
      · have hk : k ≠ cellGet s.idCounter := by
          have := (hip _ (mem_of_mapGet_eq_some hget)).2
          exact Nat.ne_of_lt this
        rw [hee]
        dsimp only
        rw [mapGet_mapInsert_ne _ _ _ _ hk]
        exact hget

/-- C6 witness: the mother's profile after a successful record insertion is
the old profile with only the status and checkup-time fields renewed. -/
theorem C6_witness :
    mapGet (add_health_record 5 payRecMild storeA).2.profiles
        payRecMild.mother_id =
      some { profA with
               health_status := analyze_health_status payRecMild
               last_checkup := 5 } :=
  (C6_profile_frame 5 payRecMild storeA (by decide) (by decide)).2.2.1 profA
    (by decide)

/-- C7: in every state reachable from the initial store, `get_critical_cases`
returns exactly the profiles whose current health status is Critical, in
ascending id order. -/
theorem C7_critical_scan (ops : List Op) (h : ops.length < U64) :
    (∀ prof, prof ∈ get_critical_cases (runTrace initStore ops).2 ↔
      (mapGet (runTrace initStore ops).2.profiles prof.id = some prof ∧
       prof.health_status = HealthStatus.Critical)) ∧
    (get_critical_cases (runTrace initStore ops).2).Pairwise
      (fun a b => a.id < b.id) := by
  have hWF : Store.WF (runTrace initStore ops).2 :=
    WF_runTrace ops initStore WF_initStore
      (by have h0 : cellGet initStore.idCounter = 0 := rfl; omega)
  exact critical_scan_WF _ hWF

/-- C7 witness: the critical scan on the store reached by one successful
profile creation lists the Critical profiles in ascending id order. -/
theorem C7_witness :
    (get_critical_cases (runTrace initStore
        [Op.createProfile 10 payProfile]).2).Pairwise (fun a b => a.id < b.id) :=
  (C7_critical_scan [Op.createProfile 10 payProfile] (by decide)).2

/-- C8 counterexample: with `now = 0` and `days = 1`, the record `recB`
whose `next_appointment` is exactly `now + 1 day` — the right endpoint,
excluded from the claim's open interval — is nevertheless returned. -/
theorem C8_counterexample :
    (profA, recB) ∈ get_upcoming_appointments 0 1 storeB ∧
    recB.next_appointment = appointmentTarget 0 1 ∧
    ¬ recB.next_appointment < appointmentTarget 0 1 := by
  refine ⟨by decide, by decide, by decide⟩

/-- C8 (amended): on every well-formed store, `get_upcoming_appointments`
returns exactly the pairs of an owning profile (found by point lookup on
`mother_id`) and a stored record whose `next_appointment` lies in the
half-open interval `(now, now + within_days]` (right endpoint included,
computed in wrapping u64 arithmetic); records whose owning profile is
absent are silently dropped. -/
theorem C8_upcoming_appointments (now days : Nat) (s : Store)
    (hWF : Store.WF s) (prof : MotherProfile) (rec : HealthRecord) :
    (prof, rec) ∈ get_upcoming_appointments now days s ↔
      (mapGet s.records rec.id = some rec ∧
       now < rec.next_appointment ∧
       rec.next_appointment ≤ appointmentTarget now days ∧
       mapGet s.profiles rec.mother_id = some prof) := by
  obtain ⟨_, hsr, _, hir⟩ := hWF
  unfold get_upcoming_appointments
  constructor
  · intro hmem
    rcases List.mem_filterMap.mp hmem with ⟨kv, hkvf, hf⟩
    obtain ⟨hkvm, hcond⟩ := List.mem_filter.mp hkvf
    simp only [Bool.and_eq_true, decide_eq_true_eq, gt_iff_lt] at hcond
    rcases Option.map_eq_some'.mp hf with ⟨pr, hpr, heq⟩
    injection heq with hA hB
    subst hA
    subst hB
    refine ⟨mapGet_eq_some_of_mem hsr ?_, hcond.1, hcond.2, hpr⟩
    rw [(hir kv hkvm).1]
    exact hkvm
  · rintro ⟨hget, hgt, hle, hpr⟩
    refine List.mem_filterMap.mpr
      ⟨(rec.id, rec), List.mem_filter.mpr ⟨mem_of_mapGet_eq_some hget, ?_⟩, ?_⟩
    · simp [hgt, hle]
    · rw [hpr]
      rfl

/-- C8 witness: the characterization at the concrete store `storeB`. -/
theorem C8_witness :
    (profA, recB) ∈ get_upcoming_appointments 0 1 storeB ↔
      (mapGet storeB.records recB.id = some recB ∧
       0 < recB.next_appointment ∧
       recB.next_appointment ≤ appointmentTarget 0 1 ∧
       mapGet storeB.profiles recB.mother_id = some profA) :=
  C8_upcoming_appointments 0 1 storeB (by decide) profA recB

/-- C9: there is a validation-accepted payload — delivery date strictly in
the future but less than one week away — for which `create_mother_profile`
stores and returns a profile whose stage is PostPartum. -/
theorem C9_postpartum_future_edd :
    ∃ (now : Nat) (payload : MotherProfilePayload),
      validate_mother_profile now payload = Except.ok () ∧
      now < payload.expected_delivery_date ∧
      payload.expected_delivery_date < now + weekNs ∧
      ∃ prof, (create_mother_profile now payload initStore).1 = Except.ok prof ∧
        prof.stage = PregnancyStage.PostPartum := by
  refine ⟨0, payC9, rfl, by decide, by decide, profC9, ?_, rfl⟩
  rfl

/-- C10: `get_high_risk_profiles` and `get_critical_cases` are extensionally
equal — the same filter over the same profile map. -/
theorem C10_high_risk_eq_critical (s : Store) :
    get_high_risk_profiles s = get_critical_cases s := rfl

end MamaPack
